import Mathlib

/-!
Shallow embedding of the cursor-pagination and confirmation-elicitation core of
the okta-mcp-server repository, together with theorems settling the frozen
claims about it.

Sources embedded:
- `src/okta_mcp_server/utils/pagination.py`
  (`extract_after_cursor`, `paginate_all_results`, `create_paginated_response`)
- `src/okta_mcp_server/tools/system_logs/system_logs.py`
  (`paginate_system_logs`, the `limit` clamp in `get_logs`)
- `src/okta_mcp_server/tools/groups/groups.py`
  (`confirm_delete_group`, the `limit` clamp in `list_groups`)
- `src/okta_mcp_server/tools/applications/applications.py`
  (`confirm_delete_application`)
- `src/okta_mcp_server/utils/validation.py` (`validate_okta_id`)
- `src/okta_mcp_server/utils/elicitation.py` (`elicit_or_fallback`)

Modelling conventions: Python `None` becomes `Option.none`; duck-typed
attribute presence (`hasattr`) becomes an `Option` field whose `none` case is
"attribute absent"; `await` points (network calls) are replaced by explicit
scripts (`Nat`-indexed functions) recording what the external collaborator
returns on each successive call; exceptions raised by a collaborator are an
explicit constructor of the script's result type, since the source catches
them at the call site.  `asyncio.sleep` delays and `loguru` logging have no
observable effect on the returned values and are omitted.
-/

set_option maxRecDepth 8000

namespace OktaMcp

/-! ## Character-list helpers modelling the Python stdlib URL parsing

`extract_after_cursor` calls `urllib.parse.urlparse` and `parse_qs`.  Only the
query-string behaviour is exercised: `urlparse` yields as `query` the text
after the first `?` of the part before the first `#`; `parse_qs` splits the
query on `&`, keeps `name=value` fields whose value part (after the first `=`)
is non-empty, and `get("after", [None])[0]` reads the value of the first
`after` field.  Percent- and plus-decoding are not modelled: the cursors this
repository handles are plain opaque tokens.
-/

/-- Characters of `l` strictly before the first occurrence of `c`. -/
def takeUntilChar (c : Char) : List Char → List Char
  | [] => []
  | x :: xs => if x = c then [] else x :: takeUntilChar c xs

/-- Characters of `l` strictly after the first occurrence of `c`; `none` when
`c` does not occur. -/
def dropThroughChar (c : Char) : List Char → Option (List Char)
  | [] => none
  | x :: xs => if x = c then some xs else dropThroughChar c xs

/-- Split `l` on every occurrence of `c` (auxiliary accumulator form). -/
def splitOnCharAux (c : Char) : List Char → List Char → List (List Char)
  | [], cur => [cur.reverse]
  | x :: xs, cur =>
      if x = c then cur.reverse :: splitOnCharAux c xs []
      else splitOnCharAux c xs (x :: cur)

/-- Split `l` on every occurrence of `c`. -/
def splitOnChar (c : Char) (l : List Char) : List (List Char) :=
  splitOnCharAux c l []

/-- The query component of a URL: the text after the first `?` of the part
before the first `#` (empty when there is no `?`), as `urlparse` computes it
for the relative URLs the Okta SDK stores in `response._next`. -/
def urlQueryChars (url : List Char) : List Char :=
  (dropThroughChar '?' (takeUntilChar '#' url)).getD []

/-- One `name=value` field of a query string, as `parse_qs` (with its default
`keep_blank_values=False`) retains it: the field must contain `=` and the
value part after the first `=` must be non-empty. -/
def qsPair (field : List Char) : Option (List Char × List Char) :=
  match dropThroughChar '=' field with
  | none => none
  | some v => if v.isEmpty then none else some (takeUntilChar '=' field, v)

/-- First value bound to `key` in a query string, i.e.
`parse_qs(query).get(key, [None])[0]`. -/
def qsFirstValue (key : List Char) (query : List Char) : Option (List Char) :=
  (((splitOnChar '&' query).filterMap qsPair).find? (fun p => p.1 == key)).map (fun p => p.2)

/-! ## The paged-response handle -/

/-- The duck-typed Okta API response handle, as `extract_after_cursor` and
`create_paginated_response` observe it.  `has_next_attr = none` models an
object without a `has_next` attribute; `some b` models `has_next()` returning
`b`.  `next_attr = none` models a missing `_next` attribute, `some none` a
`_next` of `None`, `some (some url)` a `_next` string (the empty string is
falsy in Python and is treated like `None` at the use site). -/
structure OktaAPIResponse where
  has_next_attr : Option Bool
  next_attr : Option (Option String)
deriving Repr, DecidableEq

/-- `pagination.extract_after_cursor` (pagination.py lines 15-36): return
`None` when the response is `None`, lacks `has_next`, or `has_next()` is
false; otherwise parse `response._next` (when present and truthy) as a URL and
return the first `after` query parameter.  The source's `try/except` swallows
parse failures; the modelled parsing is total, so every failure mode already
yields `none`. -/
def extract_after_cursor (response : Option OktaAPIResponse) : Option String :=
  match response with
  | none => none
  | some r =>
    match r.has_next_attr with
    | none => none
    | some hn =>
      if hn then
        match r.next_attr with
        | some (some url) =>
            if url = "" then none
            else (qsFirstValue "after".data (urlQueryChars url.data)).map String.mk
        | _ => none
      else none

/-- `response.has_next() if hasattr(response, "has_next") else False`, with a
`None` response also giving `False` (the source only evaluates this behind a
truthiness check on `response`). -/
def respHasNextFlag : Option OktaAPIResponse → Bool
  | some r => r.has_next_attr.getD false
  | none => false

/-! ## Pagination report and envelope -/

/-- The `pagination_info` dict threaded through both paginators
(pagination.py line 57, system_logs.py lines 52-57). -/
structure PaginationInfo where
  pages_fetched : Nat
  total_items : Nat
  stopped_early : Bool
  stop_reason : Option String
deriving Repr, DecidableEq

/-- Setting `stopped_early = True` and a stop reason, the update both
paginators perform at every early stop. -/
def markStopped (info : PaginationInfo) (reason : String) : PaginationInfo :=
  { info with stopped_early := true, stop_reason := some reason }

/-- The envelope dict returned by `create_paginated_response`
(pagination.py lines 121-127). -/
structure PaginatedResult (α : Type) where
  items : List α
  total_fetched : Nat
  has_more : Bool
  next_cursor : Option String
  fetch_all_used : Bool
  pagination_info : Option PaginationInfo
deriving Repr, DecidableEq

/-- `pagination.create_paginated_response` (pagination.py lines 107-138):
base envelope with `has_more = False` and `next_cursor = None`; when
`fetch_all_used` is false and the response is truthy, `has_more` and
`next_cursor` are re-derived from the handle; `pagination_info` is attached
when provided. -/
def create_paginated_response {α : Type} (items : List α)
    (response : Option OktaAPIResponse) (fetch_all_used : Bool)
    (pagination_info : Option PaginationInfo) : PaginatedResult α :=
  if !fetch_all_used && response.isSome then
    { items := items, total_fetched := items.length,
      has_more := respHasNextFlag response,
      next_cursor := extract_after_cursor response,
      fetch_all_used := fetch_all_used, pagination_info := pagination_info }
  else
    { items := items, total_fetched := items.length, has_more := false,
      next_cursor := none,
      fetch_all_used := fetch_all_used, pagination_info := pagination_info }

/-! ## Generic paginator (`paginate_all_results`)

The source walks a stateful response object: `response.has_next()` is queried
at the top of each iteration and `await response.next()` both returns
`(items, err)` and advances the object's internal position.  The object is
modelled as a script indexed by the number of `next()` calls already made. -/

/-- Outcome of one `response.next()` call: a pair `(items, err)` with a falsy
error (the `None` items of the Okta SDK are folded into the empty list, which
the source treats identically via truthiness), a truthy error, or a raised
exception (caught by the source at the call site). -/
inductive FetchStep (α : Type) where
  | ok (items : List α)
  | err (msg : String)
  | exc (msg : String)
deriving Repr, DecidableEq

/-- Behaviour of the paged-response object across a run: `hasNext k` is what
`has_next()` returns after `k` successful `next()` calls, `next k` the result
of the `(k+1)`-th `next()` call. -/
structure PagedSource (α : Type) where
  hasNext : Nat → Bool
  next : Nat → FetchStep α

/-- Mutable state of the `while` loop of `paginate_all_results`: accumulated
items, `pages_fetched`, the number of consumed `next()` calls, and the
`pagination_info` dict. -/
structure GenPagState (α : Type) where
  acc : List α
  pages : Nat
  k : Nat
  info : PaginationInfo
deriving Repr, DecidableEq

/-- The `while response.has_next() and pages_fetched < max_pages` loop of
`paginate_all_results` (pagination.py lines 63-89).  The first `Nat` is fuel;
since every continuing iteration increments `pages` and the loop guard
requires `pages < max_pages`, fuel `max_pages` never runs out (when it reaches
0 the guard is already false), so the fuelled function equals the source loop.
An error or exception from `next()` marks the report stopped-early and breaks;
an empty page breaks silently; a non-empty page is appended and the loop
continues. -/
def genLoopF {α : Type} (src : PagedSource α) (max_pages : Nat) :
    Nat → GenPagState α → GenPagState α
  | 0, st => st
  | fuel + 1, st =>
    if src.hasNext st.k && decide (st.pages < max_pages) then
      match src.next st.k with
      | .err m => { st with info := markStopped st.info ("API error: " ++ m) }
      | .exc m => { st with info := markStopped st.info ("Exception: " ++ m) }
      | .ok items =>
          if items.isEmpty then st
          else
            genLoopF src max_pages fuel
              { st with acc := st.acc ++ items, pages := st.pages + 1, k := st.k + 1 }
    else st

/-- `pagination.paginate_all_results` (pagination.py lines 39-104), with the
initial response modelled as `none` when it is `None` or lacks a `has_next`
attribute (the early-return guard of line 59).  `initial_items` of `None`
is already folded into `[]` as the source does on line 53.  The default
`max_pages` at the call sites in this repository is 50; `delay_between_requests`
only times requests and is omitted.  After the loop, reaching the page limit
while `has_next()` still holds marks the report stopped-early, and
`pages_fetched` / `total_items` are rewritten from the final state. -/
def paginate_all_results {α : Type} (initial_response : Option (PagedSource α))
    (initial_items : List α) (max_pages : Nat) : List α × PaginationInfo :=
  match initial_response with
  | none =>
      (initial_items,
        { pages_fetched := 1, total_items := initial_items.length,
          stopped_early := false, stop_reason := none })
  | some src =>
      let st := genLoopF src max_pages max_pages
        { acc := initial_items, pages := 1, k := 0,
          info := { pages_fetched := 1, total_items := initial_items.length,
                    stopped_early := false, stop_reason := none } }
      let info1 :=
        if decide (max_pages ≤ st.pages) && src.hasNext st.k then
          markStopped st.info ("Reached maximum page limit (" ++ toString max_pages ++ ")")
        else st.info
      (st.acc, { info1 with pages_fetched := st.pages, total_items := st.acc.length })

/-! ## Resilient log paginator (`paginate_system_logs`) -/

/-- Outcome of one `client.get_logs(params)` call inside the log paginator:
`(logs, response, err)` with falsy error, a truthy error, or a raised
exception. -/
inductive LogsFetch (α : Type) where
  | ok (logs : List α) (resp : Option OktaAPIResponse)
  | err (msg : String)
  | exc (msg : String)
deriving Repr, DecidableEq

/-- Behaviour of the Okta client across a run of the log paginator:
`get_logs k` is the result of the `(k+1)`-th `client.get_logs` call the
paginator issues.  (The query parameters of each call are the initial ones
with `after` replaced by the extracted cursor; they do not influence the
modelled control flow.) -/
structure LogsClient (α : Type) where
  get_logs : Nat → LogsFetch α

/-- Mutable state of the `while pages_fetched < max_pages` loop of
`paginate_system_logs`: accumulated logs, `pages_fetched`, the number of
`client.get_logs` calls issued, the current response handle, and the
`pagination_info` dict. -/
structure LogPagState (α : Type) where
  all_logs : List α
  pages : Nat
  fetches : Nat
  response : Option OktaAPIResponse
  info : PaginationInfo
deriving Repr, DecidableEq

/-- The `while pages_fetched < max_pages` loop of `paginate_system_logs`
(system_logs.py lines 60-117), fuelled like `genLoopF` (every continuing
iteration increments `pages`, so fuel `max_pages` is never exhausted while the
guard holds).  Mirrors the source line by line: `cursor` is extracted from the
current response; `got_full_page` is `limit and
len(initial_logs if pages_fetched == 1 else []) == limit` — note the source
compares the *initial* page only, and the literal `[]` on every later
iteration; `sdk_says_has_more` is the truthiness of
`response and hasattr(response, "has_next") and response.has_next()`.
With no indicator the loop breaks cleanly; with indicators but no cursor it
breaks, marking stopped-early only when `got_full_page`; otherwise it issues
the next `get_logs` call, handling error / exception / empty page as the
generic paginator does and otherwise accumulating and advancing to the new
response. -/
def logLoopF {α : Type} (client : LogsClient α) (initial_logs : List α)
    (limit : Nat) (max_pages : Nat) : Nat → LogPagState α → LogPagState α
  | 0, st => st
  | fuel + 1, st =>
    if decide (st.pages < max_pages) then
      let cursor := extract_after_cursor st.response
      let got_full_page :=
        (limit != 0) && ((if st.pages = 1 then initial_logs.length else 0) == limit)
      let has_cursor := cursor.isSome
      let sdk_says_has_more := respHasNextFlag st.response
      if !(has_cursor || got_full_page || sdk_says_has_more) then st
      else if !has_cursor then
        if got_full_page then
          { st with info := markStopped st.info "No cursor available despite full page" }
        else st
      else
        match client.get_logs st.fetches with
        | .err m =>
            { st with fetches := st.fetches + 1,
                      info := markStopped st.info ("API error: " ++ m) }
        | .exc m =>
            { st with fetches := st.fetches + 1,
                      info := markStopped st.info ("Exception: " ++ m) }
        | .ok logs resp =>
            if logs.isEmpty then { st with fetches := st.fetches + 1 }
            else
              logLoopF client initial_logs limit max_pages fuel
                { all_logs := st.all_logs ++ logs, pages := st.pages + 1,
                  fetches := st.fetches + 1, response := resp, info := st.info }
    else st

/-- `system_logs.paginate_system_logs` (system_logs.py lines 24-127).  `limit`
is a `Nat` whose 0 plays the role of every falsy Python value in the
`limit and ...` conjunction.  The defaults at the single call site are
`max_pages = 50` and `limit or 100`.  After the loop, `pages_fetched >=
max_pages` alone (no `has_next` consultation, unlike the generic paginator)
marks the report stopped-early, and `pages_fetched` / `total_items` are
rewritten from the final state. -/
def paginate_system_logs {α : Type} (client : LogsClient α)
    (initial_response : Option OktaAPIResponse) (initial_logs : List α)
    (limit : Nat) (max_pages : Nat) : List α × PaginationInfo :=
  let st := logLoopF client initial_logs limit max_pages max_pages
    { all_logs := initial_logs, pages := 1, fetches := 0,
      response := initial_response,
      info := { pages_fetched := 1, total_items := initial_logs.length,
                stopped_early := false, stop_reason := none } }
  let info1 :=
    if decide (max_pages ≤ st.pages) then
      markStopped st.info ("Reached maximum page limit (" ++ toString max_pages ++ ")")
    else st.info
  (st.all_logs, { info1 with pages_fetched := st.pages, total_items := st.all_logs.length })

/-! ## Page-size clamp at the list-tool boundary -/

/-- The `limit` validation block repeated verbatim at every list-tool boundary
(system_logs.py `get_logs` lines 173-180, groups.py `list_groups` lines 61-68
and `list_group_users` lines 343-349): a `None` limit is left alone; a limit
below 20 is raised to 20; a limit above 100 is lowered to 100; anything else
passes through unchanged.  Requested sizes are Python ints, so `Int`. -/
def clamp_limit : Option Int → Option Int
  | none => none
  | some n => if n < 20 then some 20 else if n > 100 then some 100 else some n

/-! ## Okta ID validation (`validation.validate_okta_id`) -/

/-- Whether `pat` occurs at the head of `l`. -/
def leadsWith : List Char → List Char → Bool
  | [], _ => true
  | _ :: _, [] => false
  | p :: ps, x :: xs => p == x && leadsWith ps xs

/-- Python's `pat in s` substring test over character lists. -/
def containsSeq (pat : List Char) : List Char → Bool
  | [] => pat.isEmpty
  | x :: xs => leadsWith pat (x :: xs) || containsSeq pat xs

/-- `validation.FORBIDDEN_PATTERNS` (validation.py lines 32-44), in source
order — the first matching pattern names the error. -/
def FORBIDDEN_PATTERNS : List String :=
  ["/", "\\", "..", "?", "#", "%2f", "%2F", "%5c", "%5C", "%2e%2e", "%2E%2E"]

/-- A character allowed by `VALID_OKTA_ID_PATTERN = ^[a-zA-Z0-9_\-@.+]+$`. -/
def okta_id_char (c : Char) : Bool :=
  ('a' ≤ c && c ≤ 'z') || ('A' ≤ c && c ≤ 'Z') || ('0' ≤ c && c ≤ '9')
    || c == '_' || c == '-' || c == '@' || c == '.' || c == '+'

/-- `re.match(VALID_OKTA_ID_PATTERN, s)` truthiness: the anchored pattern
matches a non-empty run of allowed characters covering the whole string —
except that Python's `$` also matches just before one final newline, so a
single trailing `\n` is tolerated. -/
def okta_id_pattern_match (s : List Char) : Bool :=
  let core := if s.getLast? == some '\n' then s.dropLast else s
  !core.isEmpty && core.all okta_id_char

/-- `validation.validate_okta_id` (validation.py lines 67-113): an empty ID is
rejected; then the forbidden patterns are tested, lower-cased, in order; then
the allowed-character pattern.  `.error` carries the `InvalidOktaIdError`
message, `.ok` returns the ID unchanged. -/
def validate_okta_id (id_value : String) (id_type : String) : Except String String :=
  if id_value = "" then .error (id_type ++ " cannot be empty")
  else
    match FORBIDDEN_PATTERNS.find?
        (fun p => containsSeq (p.data.map Char.toLower) (id_value.data.map Char.toLower)) with
    | some p =>
        .error ("Invalid " ++ id_type ++ ": contains forbidden character or pattern \x27"
          ++ p ++ "\x27. IDs must not contain path traversal sequences or URL-reserved characters.")
    | none =>
        if okta_id_pattern_match id_value.data then .ok id_value
        else
          .error ("Invalid " ++ id_type ++ ": contains invalid characters. "
            ++ "IDs must contain only alphanumeric characters, hyphens, underscores, "
            ++ "at signs, dots, and plus signs.")

/-! ## Legacy two-step delete confirmation tools -/

/-- Outcome of the client's delete call (`client.delete_group` /
`client.delete_application`): falsy error, truthy error, or a raised
exception (caught by the tool's `try`). -/
inductive DeleteCall where
  | ok
  | err (msg : String)
  | exc (msg : String)
deriving Repr, DecidableEq

/-- `groups.confirm_delete_group` (groups.py lines 213-255).  The returned
list of dicts is modelled as a list of key/value pairs; the second component
records whether `client.delete_group` was invoked.  `get_client` models
`get_okta_client(manager)`: `.error` is an exception raised there (before any
delete call).  Order mirrors the source: ID validation, then the confirmation
check, then client acquisition and the delete call. -/
def confirm_delete_group (group_id : String) (confirmation : String)
    (get_client : Except String Unit) (delete_result : DeleteCall) :
    List (String × String) × Bool :=
  match validate_okta_id group_id "group_id" with
  | .error e => ([("error", "Error: " ++ e)], false)
  | .ok _ =>
    if confirmation ≠ "DELETE" then
      ([("error", "Deletion cancelled. Confirmation \x27DELETE\x27 was not provided correctly.")],
        false)
    else
      match get_client with
      | .error m => ([("error", "Exception: " ++ m)], false)
      | .ok _ =>
        match delete_result with
        | .ok => ([("message", "Group " ++ group_id ++ " deleted successfully")], true)
        | .err m => ([("error", "Error: " ++ m)], true)
        | .exc m => ([("error", "Exception: " ++ m)], true)

/-- `applications.confirm_delete_application` (applications.py lines 220-256).
Unlike the group tool it performs no ID validation and returns plain strings.
The second component records whether `client.delete_application` was
invoked. -/
def confirm_delete_application (app_id : String) (confirmation : String)
    (get_client : Except String Unit) (delete_result : DeleteCall) :
    List String × Bool :=
  if confirmation ≠ "DELETE" then
    (["Error: Deletion cancelled. Confirmation \x27DELETE\x27 was not provided correctly."], false)
  else
    match get_client with
    | .error m => (["Exception: " ++ m], false)
    | .ok _ =>
      match delete_result with
      | .ok => (["Application " ++ app_id ++ " deleted successfully"], true)
      | .err m => (["Error: " ++ m], true)
      | .exc m => (["Exception: " ++ m], true)

/-! ## Elicitation mediator (`elicitation.elicit_or_fallback`) -/

/-- JSON-ish values appearing in fallback payloads. -/
inductive JVal where
  | bool (b : Bool)
  | str (s : String)
deriving Repr, DecidableEq

/-- A fallback payload dict, as key/value pairs. -/
abbrev Payload := List (String × JVal)

/-- The data object of an accepted elicitation, observed through
`getattr(result.data, "confirm", False)`: `confirm = none` models an object
without a `confirm` attribute (the `getattr` default applies).  For the
`DeleteConfirmation` / `DeactivateConfirmation` Pydantic schemas the field
always exists and itself defaults to `False` when the submission omits it
(elicitation.py lines 32-47). -/
structure SubmittedData where
  confirm : Option Bool
deriving Repr, DecidableEq

/-- Shape of a completed `ctx.elicit` exchange: `AcceptedElicitation` with its
(possibly `None`, i.e. falsy) `data`, `DeclinedElicitation`,
`CancelledElicitation`, or any other unexpected result object. -/
inductive ElicitResultShape where
  | accepted (data : Option SubmittedData)
  | declined
  | cancelled
  | unexpected
deriving Repr, DecidableEq

/-- What `await ctx.elicit(...)` does: complete with a result, raise an
`McpError` carrying an error code (the source only branches on the code for
logging), or raise any other exception. -/
inductive ElicitExchange where
  | result (r : ElicitResultShape)
  | mcpError (code : Int)
  | raised
deriving Repr, DecidableEq

/-- `elicitation.ElicitationOutcome` (elicitation.py lines 54-71). -/
structure ElicitationOutcome where
  confirmed : Bool
  used_elicitation : Bool
  fallback_response : Option Payload
deriving Repr, DecidableEq

/-- The generic `{"confirmation_required": True, "message": message}` payload
(elicitation.py lines 143-146). -/
def default_fallback (message : String) : Payload :=
  [("confirmation_required", .bool true), ("message", .str message)]

/-- `fallback_payload or {...}`: Python `or` replaces every falsy left operand
(`None` or an empty dict) with the generic payload. -/
def fallback_or_default (fallback_payload : Option Payload) (message : String) : Payload :=
  match fallback_payload with
  | some p => if p.isEmpty then default_fallback message else p
  | none => default_fallback message

/-- `elicitation.elicit_or_fallback` (elicitation.py lines 93-194).
`supports` is the result of the `supports_elicitation(ctx)` capability probe
(itself never raising, elicitation.py lines 78-86); `exchange` is the
behaviour of the `ctx.elicit` call, reached only when `supports` holds.
Accepted results with truthy data yield `confirmed =
getattr(result.data, "confirm", False)`; declined, cancelled, accepted-with-
falsy-data and unexpected shapes all fail closed; `McpError` and any other
exception fall back according to `auto_confirm_on_fallback`, exactly as the
capability-absent branch does. -/
def elicit_or_fallback (supports : Bool) (message : String)
    (fallback_payload : Option Payload) (auto_confirm_on_fallback : Bool)
    (exchange : ElicitExchange) : ElicitationOutcome :=
  if !supports then
    if auto_confirm_on_fallback then
      { confirmed := true, used_elicitation := false, fallback_response := none }
    else
      { confirmed := false, used_elicitation := false,
        fallback_response := some (fallback_or_default fallback_payload message) }
  else
    match exchange with
    | .result (.accepted (some d)) =>
        { confirmed := d.confirm.getD false, used_elicitation := true, fallback_response := none }
    | .result (.accepted none) =>
        { confirmed := false, used_elicitation := true, fallback_response := none }
    | .result .declined =>
        { confirmed := false, used_elicitation := true, fallback_response := none }
    | .result .cancelled =>
        { confirmed := false, used_elicitation := true, fallback_response := none }
    | .result .unexpected =>
        { confirmed := false, used_elicitation := true, fallback_response := none }
    | .mcpError _ =>
        if auto_confirm_on_fallback then
          { confirmed := true, used_elicitation := false, fallback_response := none }
        else
          { confirmed := false, used_elicitation := false,
            fallback_response := some (fallback_or_default fallback_payload message) }
    | .raised =>
        if auto_confirm_on_fallback then
          { confirmed := true, used_elicitation := false, fallback_response := none }
        else
          { confirmed := false, used_elicitation := false,
            fallback_response := some (fallback_or_default fallback_payload message) }

/-! ## Loop invariants of the two paginators -/

/-- `pages_fetched` never decreases across the generic pagination loop. -/
theorem genLoopF_pages_ge {α : Type} (src : PagedSource α) (maxp : Nat) :
    ∀ (fuel : Nat) (st : GenPagState α), st.pages ≤ (genLoopF src maxp fuel st).pages := by
  intro fuel
  induction fuel with
  | zero => intro st; exact Nat.le_refl _
  | succ n ih =>
      intro st
      simp only [genLoopF]
      repeat' split
      any_goals exact Nat.le_refl _
      refine Nat.le_trans ?_ (ih _)
      exact Nat.le_succ _

/-- `pages_fetched` stays below `max st.pages maxp` across the generic
pagination loop (the guard only admits another fetch while strictly below
`maxp`). -/
theorem genLoopF_pages_le {α : Type} (src : PagedSource α) (maxp : Nat) :
    ∀ (fuel : Nat) (st : GenPagState α),
      (genLoopF src maxp fuel st).pages ≤ max st.pages maxp := by
  intro fuel
  induction fuel with
  | zero => intro st; exact Nat.le_max_left _ _
  | succ n ih =>
      intro st
      simp only [genLoopF]
      split
      · rename_i hcond
        have hlt : st.pages < maxp :=
          of_decide_eq_true ((Bool.and_eq_true _ _).mp hcond).2
        repeat' split
        any_goals exact Nat.le_max_left _ _
        refine Nat.le_trans (ih _) ?_
        show max (st.pages + 1) maxp ≤ max st.pages maxp
        omega
      · exact Nat.le_max_left _ _

/-- Everything the generic pagination loop appends comes as whole fetched
pages: the final accumulator is the starting one followed by the
concatenation of a list of pages. -/
theorem genLoopF_acc_append {α : Type} (src : PagedSource α) (maxp : Nat) :
    ∀ (fuel : Nat) (st : GenPagState α),
      ∃ ps : List (List α), (genLoopF src maxp fuel st).acc = st.acc ++ ps.flatten := by
  intro fuel
  induction fuel with
  | zero => intro st; exact ⟨[], by simp [genLoopF]⟩
  | succ n ih =>
      intro st
      simp only [genLoopF]
      repeat' split
      any_goals (refine ⟨[], ?_⟩; simp; done)
      rename_i items heq hne
      obtain ⟨ps, hps⟩ := ih
        { st with acc := st.acc ++ items, pages := st.pages + 1, k := st.k + 1 }
      exact ⟨items :: ps, by simp only [hps]; simp⟩

/-- `pages_fetched` never decreases across the log pagination loop. -/
theorem logLoopF_pages_ge {α : Type} (client : LogsClient α) (init : List α)
    (limit maxp : Nat) :
    ∀ (fuel : Nat) (st : LogPagState α),
      st.pages ≤ (logLoopF client init limit maxp fuel st).pages := by
  intro fuel
  induction fuel with
  | zero => intro st; exact Nat.le_refl _
  | succ n ih =>
      intro st
      simp only [logLoopF]
      repeat' split
      any_goals exact Nat.le_refl _
      all_goals (refine Nat.le_trans ?_ (ih _); exact Nat.le_succ _)

/-- `pages_fetched` stays below `max st.pages maxp` across the log pagination
loop. -/
theorem logLoopF_pages_le {α : Type} (client : LogsClient α) (init : List α)
    (limit maxp : Nat) :
    ∀ (fuel : Nat) (st : LogPagState α),
      (logLoopF client init limit maxp fuel st).pages ≤ max st.pages maxp := by
  intro fuel
  induction fuel with
  | zero => intro st; exact Nat.le_max_left _ _
  | succ n ih =>
      intro st
      simp only [logLoopF]
      split
      · rename_i hcond
        have hlt : st.pages < maxp := of_decide_eq_true hcond
        repeat' split
        any_goals exact Nat.le_max_left _ _
        all_goals
          refine Nat.le_trans (ih _) ?_
          show max (st.pages + 1) maxp ≤ max st.pages maxp
          omega
      · exact Nat.le_max_left _ _

/-- Everything the log pagination loop appends comes as whole fetched pages. -/
theorem logLoopF_acc_append {α : Type} (client : LogsClient α) (init : List α)
    (limit maxp : Nat) :
    ∀ (fuel : Nat) (st : LogPagState α),
      ∃ ps : List (List α),
        (logLoopF client init limit maxp fuel st).all_logs = st.all_logs ++ ps.flatten := by
  intro fuel
  induction fuel with
  | zero => intro st; exact ⟨[], by simp [logLoopF]⟩
  | succ n ih =>
      intro st
      simp only [logLoopF]
      repeat' split
      any_goals (refine ⟨[], ?_⟩; simp; done)
      all_goals
        rename_i logs resp heq hne
        obtain ⟨ps, hps⟩ := ih
          { all_logs := st.all_logs ++ logs, pages := st.pages + 1,
            fetches := st.fetches + 1, response := resp, info := st.info }
        exact ⟨logs :: ps, by simp only [hps]; simp⟩

/-! ## Claim theorems -/

/-- C2: for every item list, response handle (including `none`) and pagination
report, calling `create_paginated_response` with `fetch_all_used = true`
yields an envelope with `has_more = false` and `next_cursor = none`,
regardless of the handle's continuation probe or embedded next-page locator;
early termination can only surface through the attached `pagination_info`. -/
theorem C2_fetch_all_forces_no_more {α : Type} (items : List α)
    (response : Option OktaAPIResponse) (info : Option PaginationInfo) :
    (create_paginated_response items response true info).has_more = false ∧
    (create_paginated_response items response true info).next_cursor = none :=
  ⟨rfl, rfl⟩

/-- C8: `extract_after_cursor` yields `none` on a `None` handle, a handle
without a continuation probe, or a probe reporting false; on a probing handle
it reads the first `after` query parameter of the embedded locator
(`"/x?after=C123&limit=50"` gives exactly `"C123"`), and yields `none` when
the parameter is absent, the locator is `None`, or the `_next` attribute is
missing.  Extraction is a total function of the handle, so it cannot raise. -/
theorem C8_cursor_extraction :
    extract_after_cursor none = none ∧
    (∀ nxt : Option (Option String),
        extract_after_cursor (some { has_next_attr := none, next_attr := nxt }) = none) ∧
    (∀ nxt : Option (Option String),
        extract_after_cursor (some { has_next_attr := some false, next_attr := nxt }) = none) ∧
    extract_after_cursor
        (some { has_next_attr := some true, next_attr := some (some "/x?after=C123&limit=50") })
      = some "C123" ∧
    extract_after_cursor
        (some { has_next_attr := some true, next_attr := some (some "/x?limit=50") }) = none ∧
    extract_after_cursor (some { has_next_attr := some true, next_attr := some none }) = none ∧
    extract_after_cursor (some { has_next_attr := some true, next_attr := none }) = none :=
  ⟨rfl, fun _ => rfl, fun _ => rfl, by decide, by decide, rfl, rfl⟩

/-- C9: the page-size clamp applied at every list-tool boundary maps each
non-`None` requested size `n` to `max 20 (min 100 n)` — silently raising
values below 20 and lowering values above 100, never rejecting — and the
clamp is idempotent. -/
theorem C9_limit_clamp :
    (∀ n : Int, clamp_limit (some n) = some (max 20 (min 100 n))) ∧
    (∀ x : Option Int, clamp_limit (clamp_limit x) = clamp_limit x) := by
  constructor
  · intro n
    show (if n < 20 then some 20 else if n > 100 then some 100 else some n)
        = some (max 20 (min 100 n))
    split_ifs with h1 h2 <;> (congr 1; omega)
  · intro x
    cases x with
    | none => rfl
    | some n =>
        show clamp_limit (clamp_limit (some n)) = clamp_limit (some n)
        by_cases h1 : n < 20
        · have e : clamp_limit (some n) = some 20 := by simp [clamp_limit, h1]
          rw [e]; decide
        · by_cases h2 : n > 100
          · have e : clamp_limit (some n) = some 100 := by simp [clamp_limit, h1, h2]
            rw [e]; decide
          · have e : clamp_limit (some n) = some n := by simp [clamp_limit, h1, h2]
            rw [e]; exact e

/-- C10: when exhaustive fetch is not used, the envelope can carry
`has_more = true` together with `next_cursor = none`: a handle whose probe
reports true but whose locator has no `after` parameter (or is `None`) tells
the caller more data exists while giving no cursor to fetch it, so
`next_cursor = none` does not imply `has_more = false`. -/
theorem C10_has_more_without_cursor :
    (create_paginated_response ([] : List Unit)
        (some { has_next_attr := some true, next_attr := some (some "/api/v1/logs?limit=100") })
        false none).has_more = true ∧
    (create_paginated_response ([] : List Unit)
        (some { has_next_attr := some true, next_attr := some (some "/api/v1/logs?limit=100") })
        false none).next_cursor = none ∧
    (create_paginated_response ([] : List Unit)
        (some { has_next_attr := some true, next_attr := some none })
        false none).has_more = true ∧
    (create_paginated_response ([] : List Unit)
        (some { has_next_attr := some true, next_attr := some none })
        false none).next_cursor = none := by
  decide

/-- C4: with elicitation supported, every completed exchange marks
`used_elicitation = true`, and `confirmed` is true exactly when the exchange
was accepted with truthy data whose submitted `confirm` resolves to true;
declined, cancelled, unexpected shapes, accepted with falsy data, and
accepted submissions whose `confirm` is omitted or false all yield
`confirmed = false`. -/
theorem C4_elicitation_fail_closed (message : String) (fp : Option Payload)
    (auto : Bool) (r : ElicitResultShape) :
    (elicit_or_fallback true message fp auto (.result r)).used_elicitation = true ∧
    ((elicit_or_fallback true message fp auto (.result r)).confirmed = true ↔
      ∃ d : SubmittedData, r = .accepted (some d) ∧ d.confirm.getD false = true) := by
  cases r with
  | accepted data =>
      cases data with
      | none => exact ⟨rfl, by simp [elicit_or_fallback]⟩
      | some d =>
          refine ⟨rfl, ?_⟩
          constructor
          · intro h
            exact ⟨d, rfl, h⟩
          · rintro ⟨d', hd, h⟩
            cases hd
            exact h
  | declined => exact ⟨rfl, by simp [elicit_or_fallback]⟩
  | cancelled => exact ⟨rfl, by simp [elicit_or_fallback]⟩
  | unexpected => exact ⟨rfl, by simp [elicit_or_fallback]⟩

/-- C5: whenever elicitation capability is absent, or the exchange fails with
an `McpError` (any code, method-not-found included) or any other exception,
the outcome is fully determined by `auto_confirm_on_fallback`: true gives
`(confirmed = true, used_elicitation = false, fallback_response = none)`,
false gives `(confirmed = false, used_elicitation = false, fallback_response`
non-`none`, defaulting to the `confirmation_required`/`message` payload); and
over all paths `fallback_response` is non-`none` exactly when
`used_elicitation` is false and `auto_confirm_on_fallback` is false. -/
theorem C5_fallback_policy_determinism :
    (∀ (message : String) (fp : Option Payload) (exchange : ElicitExchange),
        elicit_or_fallback false message fp true exchange =
          { confirmed := true, used_elicitation := false, fallback_response := none }) ∧
    (∀ (message : String) (fp : Option Payload) (exchange : ElicitExchange),
        elicit_or_fallback false message fp false exchange =
          { confirmed := false, used_elicitation := false,
            fallback_response := some (fallback_or_default fp message) }) ∧
    (∀ (message : String) (fp : Option Payload) (code : Int),
        elicit_or_fallback true message fp true (.mcpError code) =
          { confirmed := true, used_elicitation := false, fallback_response := none } ∧
        elicit_or_fallback true message fp false (.mcpError code) =
          { confirmed := false, used_elicitation := false,
            fallback_response := some (fallback_or_default fp message) }) ∧
    (∀ (message : String) (fp : Option Payload),
        elicit_or_fallback true message fp true .raised =
          { confirmed := true, used_elicitation := false, fallback_response := none } ∧
        elicit_or_fallback true message fp false .raised =
          { confirmed := false, used_elicitation := false,
            fallback_response := some (fallback_or_default fp message) }) ∧
    (∀ message : String,
        fallback_or_default none message =
          [("confirmation_required", JVal.bool true), ("message", JVal.str message)]) ∧
    (∀ (supports : Bool) (message : String) (fp : Option Payload) (auto : Bool)
        (exchange : ElicitExchange),
        (elicit_or_fallback supports message fp auto exchange).fallback_response ≠ none ↔
          (elicit_or_fallback supports message fp auto exchange).used_elicitation = false ∧
            auto = false) := by
  refine ⟨fun _ _ _ => rfl, fun _ _ _ => rfl, fun _ _ _ => ⟨rfl, rfl⟩,
          fun _ _ => ⟨rfl, rfl⟩, fun _ => rfl, ?_⟩
  intro s msg fp auto exch
  cases s with
  | false => cases auto <;> simp [elicit_or_fallback]
  | true =>
      cases exch with
      | result r =>
          cases r with
          | accepted data => cases data <;> cases auto <;> simp [elicit_or_fallback]
          | declined => cases auto <;> simp [elicit_or_fallback]
          | cancelled => cases auto <;> simp [elicit_or_fallback]
          | unexpected => cases auto <;> simp [elicit_or_fallback]
      | mcpError code => cases auto <;> simp [elicit_or_fallback]
      | raised => cases auto <;> simp [elicit_or_fallback]

/-- C1: evaluation of `paginate_system_logs` at the claim's own scenario —
`limit = 100`, three full pages of 100 where pages 1 and 2 carry extractable
cursors and page 3's response has no extractable cursor and a false probe.
The code fetches 3 pages and 300 items but stops with `stopped_early = false`
and no stop reason, not the claimed `stopped_early = true` with a missing-
cursor reason: the `got_full_page` signal is computed from
`initial_logs if pages_fetched == 1 else []`, so from the second iteration on
it compares `len([])` with the limit and is always false, leaving the claimed
"most recently fetched page was exactly full" signal dead after page 1. -/
theorem C1_full_page_signal_dead_after_first_page :
    (paginate_system_logs
        { get_logs := fun k =>
            if k = 0 then
              .ok (List.replicate 100 1)
                (some { has_next_attr := some true,
                        next_attr := some (some "/api/v1/logs?after=C2&limit=100") })
            else if k = 1 then
              .ok (List.replicate 100 2)
                (some { has_next_attr := some false, next_attr := some none })
            else .err "unreachable" }
        (some { has_next_attr := some true,
                next_attr := some (some "/api/v1/logs?after=C1&limit=100") })
        (List.replicate 100 (0 : Nat)) 100 50).2
      = { pages_fetched := 3, total_items := 300, stopped_early := false,
          stop_reason := none } ∧
    (paginate_system_logs
        { get_logs := fun k =>
            if k = 0 then
              .ok (List.replicate 100 1)
                (some { has_next_attr := some true,
                        next_attr := some (some "/api/v1/logs?after=C2&limit=100") })
            else if k = 1 then
              .ok (List.replicate 100 2)
                (some { has_next_attr := some false, next_attr := some none })
            else .err "unreachable" }
        (some { has_next_attr := some true,
                next_attr := some (some "/api/v1/logs?after=C1&limit=100") })
        (List.replicate 100 (0 : Nat)) 100 50).1.length = 300 := by
  constructor
  · decide
  · decide

/-- C6 counterexample: with `group_id = "a/b"` (rejected by the ID validation
that runs before the confirmation check) and the non-`"DELETE"` confirmation
`"NOPE"`, `confirm_delete_group` does not return the cancellation message —
it returns the invalid-ID error — although the delete call is still never
invoked. -/
theorem C6_counterexample :
    (confirm_delete_group "a/b" "NOPE" (.ok ()) .ok).2 = false ∧
    (confirm_delete_group "a/b" "NOPE" (.ok ()) .ok).1 ≠
      [("error",
        "Deletion cancelled. Confirmation \x27DELETE\x27 was not provided correctly.")] := by
  decide

/-- C6 (amended): for every confirmation string other than the literal
`"DELETE"`, neither legacy confirmation tool ever invokes the underlying
delete operation — the delete call is reachable only under
`confirmation = "DELETE"` — and the cancellation message is returned by
`confirm_delete_application` unconditionally and by `confirm_delete_group`
whenever the group ID passes the validation that precedes the confirmation
check (an invalid ID aborts even earlier, with an invalid-ID error and still
no delete call). -/
theorem C6_confirmation_gate :
    (∀ (gid conf : String) (gc : Except String Unit) (dr : DeleteCall),
        conf ≠ "DELETE" → (confirm_delete_group gid conf gc dr).2 = false) ∧
    (∀ (gid conf : String) (gc : Except String Unit) (dr : DeleteCall),
        (confirm_delete_group gid conf gc dr).2 = true → conf = "DELETE") ∧
    (∀ (gid conf : String) (gc : Except String Unit) (dr : DeleteCall),
        conf ≠ "DELETE" → validate_okta_id gid "group_id" = .ok gid →
        confirm_delete_group gid conf gc dr =
          ([("error",
            "Deletion cancelled. Confirmation \x27DELETE\x27 was not provided correctly.")],
            false)) ∧
    (∀ (aid conf : String) (gc : Except String Unit) (dr : DeleteCall),
        conf ≠ "DELETE" →
        confirm_delete_application aid conf gc dr =
          (["Error: Deletion cancelled. Confirmation \x27DELETE\x27 was not provided correctly."],
            false)) ∧
    (∀ (aid conf : String) (gc : Except String Unit) (dr : DeleteCall),
        (confirm_delete_application aid conf gc dr).2 = true → conf = "DELETE") := by
  have hgrp : ∀ (gid conf : String) (gc : Except String Unit) (dr : DeleteCall),
      conf ≠ "DELETE" → (confirm_delete_group gid conf gc dr).2 = false := by
    intro gid conf gc dr h
    cases hv : validate_okta_id gid "group_id" with
    | error e => simp [confirm_delete_group, hv]
    | ok v => simp [confirm_delete_group, hv, h]
  have happ : ∀ (aid conf : String) (gc : Except String Unit) (dr : DeleteCall),
      conf ≠ "DELETE" →
      confirm_delete_application aid conf gc dr =
        (["Error: Deletion cancelled. Confirmation \x27DELETE\x27 was not provided correctly."],
          false) := by
    intro aid conf gc dr h
    simp [confirm_delete_application, h]
  refine ⟨hgrp, ?_, ?_, happ, ?_⟩
  · intro gid conf gc dr h
    by_cases hc : conf = "DELETE"
    · exact hc
    · rw [hgrp gid conf gc dr hc] at h
      exact absurd h (by simp)
  · intro gid conf gc dr h hv
    simp [confirm_delete_group, hv, h]
  · intro aid conf gc dr h
    by_cases hc : conf = "DELETE"
    · exact hc
    · rw [happ aid conf gc dr hc] at h
      exact absurd h (by simp)

/-- C6 witness: the amended theorem applied at concrete inputs — a valid
group ID with confirmation `"NOPE"`, the application tool with `"NOPE"`, and
both tools' reachability direction at `"DELETE"`. -/
theorem C6_confirmation_gate_witness :
    (confirm_delete_group "00g1" "NOPE" (.ok ()) .ok).2 = false ∧
    confirm_delete_group "00g1" "NOPE" (.ok ()) .ok =
      ([("error",
        "Deletion cancelled. Confirmation \x27DELETE\x27 was not provided correctly.")],
        false) ∧
    confirm_delete_application "0oa1" "NOPE" (.ok ()) .ok =
      (["Error: Deletion cancelled. Confirmation \x27DELETE\x27 was not provided correctly."],
        false) ∧
    ("DELETE" : String) = "DELETE" ∧ ("DELETE" : String) = "DELETE" :=
  ⟨C6_confirmation_gate.1 "00g1" "NOPE" (.ok ()) .ok (by decide),
   C6_confirmation_gate.2.2.1 "00g1" "NOPE" (.ok ()) .ok (by decide) (by rfl),
   C6_confirmation_gate.2.2.2.1 "0oa1" "NOPE" (.ok ()) .ok (by decide),
   C6_confirmation_gate.2.1 "00g1" "DELETE" (.ok ()) .ok (by decide),
   C6_confirmation_gate.2.2.2.2 "0oa1" "DELETE" (.ok ()) .ok (by decide)⟩

/-- C3: in both paginators, a page fetch that returns a truthy error or
raises an exception is absorbed, never propagated and never retried: the loop
halts at that very call, keeping the items accumulated so far unchanged and
marking the report stopped-early with the error or exception text embedded in
the stop reason — and at the whole-paginator level a failing first fetch
returns exactly the initial page with such a report. -/
theorem C3_errors_absorbed_not_retried :
    (∀ (α : Type) (src : PagedSource α) (maxp fuel : Nat) (st : GenPagState α) (m : String),
        src.hasNext st.k = true → st.pages < maxp → src.next st.k = .err m →
        genLoopF src maxp (fuel + 1) st =
          { st with info := markStopped st.info ("API error: " ++ m) }) ∧
    (∀ (α : Type) (src : PagedSource α) (maxp fuel : Nat) (st : GenPagState α) (m : String),
        src.hasNext st.k = true → st.pages < maxp → src.next st.k = .exc m →
        genLoopF src maxp (fuel + 1) st =
          { st with info := markStopped st.info ("Exception: " ++ m) }) ∧
    (∀ (α : Type) (client : LogsClient α) (init : List α) (limit maxp fuel : Nat)
        (st : LogPagState α) (m : String),
        st.pages < maxp → (extract_after_cursor st.response).isSome = true →
        client.get_logs st.fetches = .err m →
        logLoopF client init limit maxp (fuel + 1) st =
          { st with fetches := st.fetches + 1,
                    info := markStopped st.info ("API error: " ++ m) }) ∧
    (∀ (α : Type) (client : LogsClient α) (init : List α) (limit maxp fuel : Nat)
        (st : LogPagState α) (m : String),
        st.pages < maxp → (extract_after_cursor st.response).isSome = true →
        client.get_logs st.fetches = .exc m →
        logLoopF client init limit maxp (fuel + 1) st =
          { st with fetches := st.fetches + 1,
                    info := markStopped st.info ("Exception: " ++ m) }) ∧
    (∀ (α : Type) (src : PagedSource α) (init : List α) (maxp : Nat) (m : String),
        1 < maxp → src.hasNext 0 = true → src.next 0 = .err m →
        paginate_all_results (some src) init maxp =
          (init, { pages_fetched := 1, total_items := init.length,
                   stopped_early := true, stop_reason := some ("API error: " ++ m) })) ∧
    (∀ (α : Type) (client : LogsClient α) (resp : Option OktaAPIResponse) (init : List α)
        (limit maxp : Nat) (m : String),
        1 < maxp → (extract_after_cursor resp).isSome = true → client.get_logs 0 = .err m →
        paginate_system_logs client resp init limit maxp =
          (init, { pages_fetched := 1, total_items := init.length,
                   stopped_early := true, stop_reason := some ("API error: " ++ m) })) := by
  have hgen_err : ∀ (α : Type) (src : PagedSource α) (maxp fuel : Nat) (st : GenPagState α)
      (m : String), src.hasNext st.k = true → st.pages < maxp → src.next st.k = .err m →
      genLoopF src maxp (fuel + 1) st =
        { st with info := markStopped st.info ("API error: " ++ m) } := by
    intro α src maxp fuel st m h1 h2 h3
    simp [genLoopF, h1, h2, h3]
  have hgen_exc : ∀ (α : Type) (src : PagedSource α) (maxp fuel : Nat) (st : GenPagState α)
      (m : String), src.hasNext st.k = true → st.pages < maxp → src.next st.k = .exc m →
      genLoopF src maxp (fuel + 1) st =
        { st with info := markStopped st.info ("Exception: " ++ m) } := by
    intro α src maxp fuel st m h1 h2 h3
    simp [genLoopF, h1, h2, h3]
  have hlog_err : ∀ (α : Type) (client : LogsClient α) (init : List α)
      (limit maxp fuel : Nat) (st : LogPagState α) (m : String),
      st.pages < maxp → (extract_after_cursor st.response).isSome = true →
      client.get_logs st.fetches = .err m →
      logLoopF client init limit maxp (fuel + 1) st =
        { st with fetches := st.fetches + 1,
                  info := markStopped st.info ("API error: " ++ m) } := by
    intro α client init limit maxp fuel st m h1 h2 h3
    simp [logLoopF, h1, h2, h3]
  have hlog_exc : ∀ (α : Type) (client : LogsClient α) (init : List α)
      (limit maxp fuel : Nat) (st : LogPagState α) (m : String),
      st.pages < maxp → (extract_after_cursor st.response).isSome = true →
      client.get_logs st.fetches = .exc m →
      logLoopF client init limit maxp (fuel + 1) st =
        { st with fetches := st.fetches + 1,
                  info := markStopped st.info ("Exception: " ++ m) } := by
    intro α client init limit maxp fuel st m h1 h2 h3
    simp [logLoopF, h1, h2, h3]
  refine ⟨hgen_err, hgen_exc, hlog_err, hlog_exc, ?_, ?_⟩
  · intro α src init maxp m h1 h2 h3
    obtain ⟨k, rfl⟩ : ∃ k, maxp = k + 2 := ⟨maxp - 2, by omega⟩
    show ((genLoopF src (k + 2) (k + 2) _).acc, _) = _
    rw [hgen_err α src (k + 2) (k + 1)
      { acc := init, pages := 1, k := 0,
        info := { pages_fetched := 1, total_items := init.length,
                  stopped_early := false, stop_reason := none } } m h2
      (by show (1 : Nat) < k + 2; omega) h3]
    have hpost : ¬(k + 2 ≤ 1) := by omega
    simp [markStopped, hpost]
  · intro α client resp init limit maxp m h1 h2 h3
    obtain ⟨k, rfl⟩ : ∃ k, maxp = k + 2 := ⟨maxp - 2, by omega⟩
    show ((logLoopF client init limit (k + 2) (k + 2) _).all_logs, _) = _
    rw [hlog_err α client init limit (k + 2) (k + 1)
      { all_logs := init, pages := 1, fetches := 0, response := resp,
        info := { pages_fetched := 1, total_items := init.length,
                  stopped_early := false, stop_reason := none } } m
      (by show (1 : Nat) < k + 2; omega) h2 h3]
    have hpost : ¬(k + 2 ≤ 1) := by omega
    simp [markStopped, hpost]

/-- C3 witness: all six parts of the absorption theorem applied at concrete
inputs — a source whose fetch errs, one whose fetch raises, a log client that
errs or raises behind a cursor-bearing response, and both whole paginators
with a failing first fetch. -/
theorem C3_errors_absorbed_not_retried_witness :
    genLoopF (α := Nat) { hasNext := fun _ => true, next := fun _ => .err "boom" } 50 50
        { acc := [1], pages := 1, k := 0,
          info := { pages_fetched := 1, total_items := 1,
                    stopped_early := false, stop_reason := none } } =
      { acc := [1], pages := 1, k := 0,
        info := { pages_fetched := 1, total_items := 1,
                  stopped_early := true, stop_reason := some "API error: boom" } } ∧
    genLoopF (α := Nat) { hasNext := fun _ => true, next := fun _ => .exc "kaput" } 50 50
        { acc := [1], pages := 1, k := 0,
          info := { pages_fetched := 1, total_items := 1,
                    stopped_early := false, stop_reason := none } } =
      { acc := [1], pages := 1, k := 0,
        info := { pages_fetched := 1, total_items := 1,
                  stopped_early := true, stop_reason := some "Exception: kaput" } } ∧
    logLoopF (α := Nat) { get_logs := fun _ => .err "boom" } [1] 100 50 50
        { all_logs := [1], pages := 1, fetches := 0,
          response := some { has_next_attr := some true, next_attr := some (some "/x?after=C1") },
          info := { pages_fetched := 1, total_items := 1,
                    stopped_early := false, stop_reason := none } } =
      { all_logs := [1], pages := 1, fetches := 1,
        response := some { has_next_attr := some true, next_attr := some (some "/x?after=C1") },
        info := { pages_fetched := 1, total_items := 1,
                  stopped_early := true, stop_reason := some "API error: boom" } } ∧
    logLoopF (α := Nat) { get_logs := fun _ => .exc "kaput" } [1] 100 50 50
        { all_logs := [1], pages := 1, fetches := 0,
          response := some { has_next_attr := some true, next_attr := some (some "/x?after=C1") },
          info := { pages_fetched := 1, total_items := 1,
                    stopped_early := false, stop_reason := none } } =
      { all_logs := [1], pages := 1, fetches := 1,
        response := some { has_next_attr := some true, next_attr := some (some "/x?after=C1") },
        info := { pages_fetched := 1, total_items := 1,
                  stopped_early := true, stop_reason := some "Exception: kaput" } } ∧
    paginate_all_results (α := Nat)
        (some { hasNext := fun _ => true, next := fun _ => .err "boom" }) [1, 2] 50 =
      ([1, 2], { pages_fetched := 1, total_items := 2,
                 stopped_early := true, stop_reason := some "API error: boom" }) ∧
    paginate_system_logs (α := Nat) { get_logs := fun _ => .err "boom" }
        (some { has_next_attr := some true, next_attr := some (some "/x?after=C1") }) [5] 100 50 =
      ([5], { pages_fetched := 1, total_items := 1,
              stopped_early := true, stop_reason := some "API error: boom" }) :=
  ⟨C3_errors_absorbed_not_retried.1 Nat _ 50 49 _ "boom" rfl (by decide) rfl,
   C3_errors_absorbed_not_retried.2.1 Nat _ 50 49 _ "kaput" rfl (by decide) rfl,
   C3_errors_absorbed_not_retried.2.2.1 Nat _ [1] 100 50 49 _ "boom" (by decide) (by decide) rfl,
   C3_errors_absorbed_not_retried.2.2.2.1 Nat _ [1] 100 50 49 _ "kaput"
     (by decide) (by decide) rfl,
   C3_errors_absorbed_not_retried.2.2.2.2.1 Nat _ [1, 2] 50 "boom" (by decide) rfl rfl,
   C3_errors_absorbed_not_retried.2.2.2.2.2 Nat _ _ [5] 100 50 "boom"
     (by decide) (by decide) rfl⟩

/-- C7 counterexample: with safety limit `max_pages = 0`, the generic
paginator still reports `pages_fetched = 1` (the initial page is counted
unconditionally), so the report exceeds the configured limit — "pages_fetched
never exceeds max_pages" fails as universally stated. -/
theorem C7_counterexample :
    (paginate_all_results (α := Nat) none [] 0).2.pages_fetched = 1 ∧
    ¬((paginate_all_results (α := Nat) none [] 0).2.pages_fetched ≤ 0) := by
  decide

/-- C7 (amended): in both paginators `pages_fetched` only increases across
the loop and never exceeds `max max_pages 1` (the initial page counts as 1
even when the limit is 0; for every `max_pages ≥ 1` this is the claimed
bound `max_pages`), and the final report's `total_items` equals the length of
the returned aggregated list, which is the initial page followed by the
concatenation of the fetched pages, so `total_items` is the sum of all
accumulated page sizes. -/
theorem C7_report_monotone_and_totals :
    (∀ (α : Type) (src : PagedSource α) (maxp fuel : Nat) (st : GenPagState α),
        st.pages ≤ (genLoopF src maxp fuel st).pages ∧
        (genLoopF src maxp fuel st).pages ≤ max st.pages maxp) ∧
    (∀ (α : Type) (client : LogsClient α) (init : List α) (limit maxp fuel : Nat)
        (st : LogPagState α),
        st.pages ≤ (logLoopF client init limit maxp fuel st).pages ∧
        (logLoopF client init limit maxp fuel st).pages ≤ max st.pages maxp) ∧
    (∀ (α : Type) (resp : Option (PagedSource α)) (init : List α) (maxp : Nat),
        1 ≤ (paginate_all_results resp init maxp).2.pages_fetched ∧
        (paginate_all_results resp init maxp).2.pages_fetched ≤ max maxp 1 ∧
        (paginate_all_results resp init maxp).2.total_items =
          (paginate_all_results resp init maxp).1.length ∧
        ∃ ps : List (List α),
          (paginate_all_results resp init maxp).1 = init ++ ps.flatten ∧
          (paginate_all_results resp init maxp).2.total_items =
            init.length + (ps.map List.length).sum) ∧
    (∀ (α : Type) (client : LogsClient α) (resp : Option OktaAPIResponse) (init : List α)
        (limit maxp : Nat),
        1 ≤ (paginate_system_logs client resp init limit maxp).2.pages_fetched ∧
        (paginate_system_logs client resp init limit maxp).2.pages_fetched ≤ max maxp 1 ∧
        (paginate_system_logs client resp init limit maxp).2.total_items =
          (paginate_system_logs client resp init limit maxp).1.length ∧
        ∃ ps : List (List α),
          (paginate_system_logs client resp init limit maxp).1 = init ++ ps.flatten ∧
          (paginate_system_logs client resp init limit maxp).2.total_items =
            init.length + (ps.map List.length).sum) := by
  refine ⟨?_, ?_, ?_, ?_⟩
  · intro α src maxp fuel st
    exact ⟨genLoopF_pages_ge src maxp fuel st, genLoopF_pages_le src maxp fuel st⟩
  · intro α client init limit maxp fuel st
    exact ⟨logLoopF_pages_ge client init limit maxp fuel st,
           logLoopF_pages_le client init limit maxp fuel st⟩
  · intro α resp init maxp
    cases resp with
    | none =>
        refine ⟨Nat.le_refl 1, Nat.le_max_right maxp 1, rfl, [],
          by simp [paginate_all_results], by simp [paginate_all_results]⟩
    | some src =>
        have hge := genLoopF_pages_ge src maxp maxp
          { acc := init, pages := 1, k := 0,
            info := { pages_fetched := 1, total_items := init.length,
                      stopped_early := false, stop_reason := none } }
        have hle := genLoopF_pages_le src maxp maxp
          { acc := init, pages := 1, k := 0,
            info := { pages_fetched := 1, total_items := init.length,
                      stopped_early := false, stop_reason := none } }
        obtain ⟨ps, hacc⟩ := genLoopF_acc_append src maxp maxp
          { acc := init, pages := 1, k := 0,
            info := { pages_fetched := 1, total_items := init.length,
                      stopped_early := false, stop_reason := none } }
        refine ⟨hge, ?_, rfl, ps, hacc, ?_⟩
        · refine Nat.le_trans hle ?_
          show max 1 maxp ≤ max maxp 1
          omega
        · show (genLoopF src maxp maxp _).acc.length = init.length + (ps.map List.length).sum
          rw [hacc]
          simp [List.length_flatten]
  · intro α client resp init limit maxp
    have hge := logLoopF_pages_ge client init limit maxp maxp
      { all_logs := init, pages := 1, fetches := 0, response := resp,
        info := { pages_fetched := 1, total_items := init.length,
                  stopped_early := false, stop_reason := none } }
    have hle := logLoopF_pages_le client init limit maxp maxp
      { all_logs := init, pages := 1, fetches := 0, response := resp,
        info := { pages_fetched := 1, total_items := init.length,
                  stopped_early := false, stop_reason := none } }
    obtain ⟨ps, hacc⟩ := logLoopF_acc_append client init limit maxp maxp
      { all_logs := init, pages := 1, fetches := 0, response := resp,
        info := { pages_fetched := 1, total_items := init.length,
                  stopped_early := false, stop_reason := none } }
    refine ⟨hge, ?_, rfl, ps, hacc, ?_⟩
    · refine Nat.le_trans hle ?_
      show max 1 maxp ≤ max maxp 1
      omega
    · show (logLoopF client init limit maxp maxp _).all_logs.length
          = init.length + (ps.map List.length).sum
      rw [hacc]
      simp [List.length_flatten]

end OktaMcp
